import Mathlib

/-!
Shallow embedding of the L9110 I2C driver (`MKE_M17/L9110_I2C.py`).

The driver holds mutable configuration (device address, degree range,
pulse range), validates parameters, assembles 5-byte command frames and
hands them to the bus collaborator `write_i2c_block_data`.  Python
integers are modelled as `Int`; Python floor division `//` is `Int.fdiv`,
`& 0xFF` on an integer is `Int.emod _ 256`, and `>> 8` is `Int.fdiv _ 256`.
The bus is modelled by a boolean outcome `txOk` (whether the underlying
I2C write raises `IOError`) together with an explicit trace of the write
calls issued to the bus collaborator.
-/

namespace L9110

/-- Mode code for servo (RC) commands, `MODE_RC = 0` in the source. -/
def MODE_RC : Int := 0

/-- Servo channel 1, `S1 = 1`. -/
def S1 : Int := 1

/-- Servo channel 2, `S2 = 2`. -/
def S2 : Int := 2

/-- Mode code for DC-motor commands, `MODE_DC = 1`. -/
def MODE_DC : Int := 1

/-- Motor channel A, `MA = 0`. -/
def MA : Int := 0

/-- Motor channel B, `MB = 1`. -/
def MB : Int := 1

/-- Clockwise direction, `CW = 0`. -/
def CW : Int := 0

/-- Counterclockwise direction, `CCW = 1`. -/
def CCW : Int := 1

/-- Mode code for address-change commands, `MODE_SET_ADDR = 2`. -/
def MODE_SET_ADDR : Int := 2

/-- Mutable configuration state of a driver instance: the fields assigned
in `__init__` (other than the bus handle, which lives in the trace model). -/
structure State where
  address : Int
  min_degree : Int
  max_degree : Int
  min_pulse : Int
  max_pulse : Int
deriving Repr, DecidableEq

/-- State produced by `__init__` with the default address `0x40`:
degree range 0–180, pulse range 500–2500. -/
def init : State :=
  { address := 0x40, min_degree := 0, max_degree := 180
    min_pulse := 500, max_pulse := 2500 }

/-- One call to the bus collaborator
`bus.write_i2c_block_data(address, register, payload)`. -/
structure I2CWrite where
  deviceAddress : Int
  register : Int
  payload : List Int
deriving Repr, DecidableEq

/-- Embedding of `_map_range`:
`(x - in_min) * (out_max - out_min) // (in_max - in_min) + out_min`
with Python floor division. -/
def _map_range (x in_min in_max out_min out_max : Int) : Int :=
  Int.fdiv ((x - in_min) * (out_max - out_min)) (in_max - in_min) + out_min

/-- Embedding of `set_range_degree`: validates `0 <= min < max <= 360`,
stores the bounds on success. -/
def set_range_degree (st : State) (min_degree max_degree : Int) :
    Bool × State :=
  if ¬ (0 ≤ min_degree ∧ min_degree < max_degree ∧ max_degree ≤ 360) then
    (false, st)
  else
    (true, { st with min_degree := min_degree, max_degree := max_degree })

/-- Embedding of `set_range_pulse`: validates `0 <= min < max <= 2815`,
stores the bounds on success. -/
def set_range_pulse (st : State) (min_pulse max_pulse : Int) :
    Bool × State :=
  if ¬ (0 ≤ min_pulse ∧ min_pulse < max_pulse ∧ max_pulse ≤ 2815) then
    (false, st)
  else
    (true, { st with min_pulse := min_pulse, max_pulse := max_pulse })

/-- Embedding of `_send_data`: issues
`bus.write_i2c_block_data(self.address, data[0], data[1:])` and returns
`True` unless the write raises `IOError` (modelled by `txOk = false`).
The emitted write is recorded in the trace in either case. -/
def _send_data (txOk : Bool) (st : State) (data : List Int) :
    Bool × List I2CWrite :=
  (txOk, [⟨st.address, data.headI, data.tail⟩])

/-- The 5-byte frame assembled by `control_servo` once validation passed:
`[MODE_RC, servo_id, pulse >> 8, pulse & 0xFF, sum & 0xFF]` where `pulse`
comes from `_map_range` over the configured degree and pulse bounds.
The checksum sums the list as it stands when `data[4]` is still `0`. -/
def servo_frame (st : State) (servo_id degree : Int) : List Int :=
  let pulse := _map_range degree st.min_degree st.max_degree
      st.min_pulse st.max_pulse
  let d2 := Int.fdiv pulse 256
  let d3 := Int.emod pulse 256
  let d4 := Int.emod (MODE_RC + servo_id + d2 + d3 + 0) 256
  [ MODE_RC, servo_id, d2, d3, d4]

/-- Embedding of `control_servo`: validates the degree against the
configured bounds, then assembles the RC frame and sends it.  The servo
id is not validated.  Returns the boolean result, the (unchanged) state
and the trace of bus writes. -/
def control_servo (txOk : Bool) (st : State) (servo_id degree : Int) :
    Bool × State × List I2CWrite :=
  if ¬ (st.min_degree ≤ degree ∧ degree ≤ st.max_degree) then
    (false, st, [])
  else
    let r := _send_data txOk st (servo_frame st servo_id degree)
    (r.1, st, r.2)

/-- The 5-byte frame assembled by `control_motor` once validation passed:
`[MODE_DC, motor_id, mapped speed, direction, sum & 0xFF]` where the
speed byte is `_map_range(percent, 0, 100, 0, 255)`. -/
def motor_frame (_st : State) (motor_id percent direction : Int) :
    List Int :=
  let d2 := _map_range percent 0 100 0 255
  let d3 := direction
  let d4 := Int.emod (MODE_DC + motor_id + d2 + d3 + 0) 256
  [ MODE_DC, motor_id, d2, d3, d4]

/-- Embedding of `control_motor`: validates `0 <= percent <= 100` and
`direction in (CW, CCW)`, then assembles the DC frame and sends it.
The motor id is not validated. -/
def control_motor (txOk : Bool) (st : State)
    (motor_id percent direction : Int) :
    Bool × State × List I2CWrite :=
  if ¬ (0 ≤ percent ∧ percent ≤ 100) then
    (false, st, [])
  else if ¬ (direction = CW ∨ direction = CCW) then
    (false, st, [])
  else
    let r := _send_data txOk st (motor_frame st motor_id percent direction)
    (r.1, st, r.2)

/-- The frame assembled by `set_address` once validation passed:
`[ MODE_SET_ADDR, 0, 0, 0, new_address + MODE_SET_ADDR]`. -/
def addr_frame (new_address : Int) : List Int :=
  [ MODE_SET_ADDR, 0, 0, 0, new_address + MODE_SET_ADDR]

/-- Embedding of `set_address`: validates `0x40 <= new_address <= 0x44`,
sends the address-change frame, and only on a successful send stores the
new address. -/
def set_address (txOk : Bool) (st : State) (new_address : Int) :
    Bool × State × List I2CWrite :=
  if ¬ (0x40 ≤ new_address ∧ new_address ≤ 0x44) then
    (false, st, [])
  else
    let r := _send_data txOk st (addr_frame new_address)
    if r.1 then (true, { st with address := new_address }, r.2)
    else (false, st, r.2)

/-- The frames carried by a trace of bus writes: the register byte
followed by the payload reconstitutes the assembled 5-byte frame. -/
def frames_sent (writes : List I2CWrite) : List (List Int) :=
  writes.map fun w => w.register :: w.payload

/-- The additive 8-bit checksum property of a frame: byte 4 equals the
sum of bytes 0–3 reduced mod 256. -/
def checksum_ok (f : List Int) : Prop :=
  f.getD 4 0 = Int.emod (f.getD 0 0 + f.getD 1 0 + f.getD 2 0 + f.getD 3 0) 256

instance (f : List Int) : Decidable (checksum_ok f) := by
  unfold checksum_ok; infer_instance

end L9110

section FloorLemmas

/-- Flooring division is invariant under negating both operands. -/
theorem fdiv_negneg : ∀ (a b : Int), Int.fdiv (-a) (-b) = Int.fdiv a b := by
  intro a b
  rcases a with m | m <;> rcases b with n | n
  · rcases m with _ | m <;> rcases n with _ | n
    · rfl
    · show Int.fdiv (Int.ofNat 0) (Int.negSucc n) =
        Int.fdiv (Int.ofNat 0) (Int.ofNat (n+1))
      rfl
    · show Int.fdiv (Int.negSucc m) (Int.ofNat 0) =
        Int.fdiv (Int.ofNat (m+1)) (Int.ofNat 0)
      simp [Int.fdiv, Nat.div_zero]
    · show Int.fdiv (Int.negSucc m) (Int.negSucc n) =
        Int.fdiv (Int.ofNat (m+1)) (Int.ofNat (n+1))
      rfl
  · rcases m with _ | m
    · show Int.fdiv (Int.ofNat 0) (Int.ofNat (n+1)) =
        Int.fdiv (Int.ofNat 0) (Int.negSucc n)
      rfl
    · show Int.fdiv (Int.negSucc m) (Int.ofNat (n+1)) =
        Int.fdiv (Int.ofNat (m+1)) (Int.negSucc n)
      rfl
  · rcases n with _ | n
    · show Int.fdiv (Int.ofNat (m+1)) (Int.ofNat 0) =
        Int.fdiv (Int.negSucc m) (Int.ofNat 0)
      simp [Int.fdiv, Nat.div_zero]
    · show Int.fdiv (Int.ofNat (m+1)) (Int.negSucc n) =
        Int.fdiv (Int.negSucc m) (Int.ofNat (n+1))
      rfl
  · show Int.fdiv (Int.ofNat (m+1)) (Int.ofNat (n+1)) =
      Int.fdiv (Int.negSucc m) (Int.negSucc n)
    rfl

/-- For a positive divisor, `Int.fdiv` is the floor of the exact rational
quotient. -/
theorem fdiv_floor_pos (a : Int) {b : Int} (hb : 0 < b) :
    Int.fdiv a b = ⌊(a : ℚ) / (b : ℚ)⌋ := by
  rw [Int.fdiv_eq_ediv _ (le_of_lt hb)]
  have hd : ((b.toNat : ℕ) : ℤ) = b := Int.toNat_of_nonneg (le_of_lt hb)
  have hfl := Rat.floor_intCast_div_natCast a b.toNat
  rw [show ((b.toNat : ℕ) : ℚ) = (b : ℚ) by
    exact_mod_cast congrArg (fun z : ℤ => (z : ℚ)) hd] at hfl
  rw [hfl, hd]

/-- For any nonzero divisor, `Int.fdiv` is the floor of the exact rational
quotient, i.e. Python floor division. -/
theorem fdiv_floor (a : Int) {b : Int} (hb : b ≠ 0) :
    Int.fdiv a b = ⌊(a : ℚ) / (b : ℚ)⌋ := by
  rcases lt_or_gt_of_ne hb with h | h
  · rw [← fdiv_negneg a b, fdiv_floor_pos (-a) (by omega : (0:Int) < -b)]
    push_cast
    rw [neg_div_neg_eq]
  · exact fdiv_floor_pos a h

end FloorLemmas

namespace L9110

/-- Helper: sending a nonempty frame records exactly one bus write whose
register byte and payload reconstitute the frame. -/
theorem frames_sent_send (txOk : Bool) (st : State) (b0 : Int)
    (rest : List Int) :
    frames_sent (_send_data txOk st (b0 :: rest)).2 = [b0 :: rest] := by
  simp [frames_sent, _send_data]

/-- C7: with the default configuration, `control_servo(S1, 90)` assembles
the frame `[0, 1, 5, 220, 226]` (pulse 1500 = 0x05DC split big-endian)
and transmits it as register 0 with payload `[1, 5, 220, 226]`. -/
theorem control_servo_default_midpoint :
    servo_frame init S1 90 = [0, 1, 5, 220, 226] ∧
    control_servo true init S1 90 =
      (true, init, [⟨0x40, 0, [1, 5, 220, 226]⟩]) := by
  decide

/-- C8: `control_motor(MA, 50, CW)` assembles the frame
`[1, 0, 127, 0, 128]` with speed byte `_map_range(50,0,100,0,255) = 127`
and raw direction byte 0, and transmits it. -/
theorem control_motor_ma_half_cw :
    motor_frame init MA 50 CW = [1, 0, 127, 0, 128] ∧
    control_motor true init MA 50 CW =
      (true, init, [⟨0x40, 1, [0, 127, 0, 128]⟩]) := by
  decide

end L9110

namespace L9110

/-- C2: for every valid new address (0x40–0x44), the address-change frame
is `[MODE_SET_ADDR, 0, 0, 0, (newAddress + MODE_SET_ADDR) & 0xFF]`, and
`set_address` transmits exactly that frame: the final byte encodes the
new address plus the mode code, not the sum of the other frame bytes. -/
theorem set_address_frame (txOk : Bool) (st : State) (a : Int)
    (h : 0x40 ≤ a ∧ a ≤ 0x44) :
    addr_frame a =
      [ MODE_SET_ADDR, 0, 0, 0, Int.emod (a + MODE_SET_ADDR) 256] ∧
    frames_sent (set_address txOk st a).2.2 =
      [[ MODE_SET_ADDR, 0, 0, 0, Int.emod (a + MODE_SET_ADDR) 256]] := by
  obtain ⟨h1, h2⟩ := h
  have hm : Int.emod (a + MODE_SET_ADDR) 256 = a + MODE_SET_ADDR := by
    unfold MODE_SET_ADDR
    exact Int.emod_eq_of_lt (by omega) (by omega)
  refine ⟨by rw [hm]; rfl, ?_⟩
  unfold set_address
  rw [if_neg (not_not_intro ⟨h1, h2⟩)]
  cases txOk <;> simp [frames_sent, _send_data, addr_frame, hm]

/-- Witness for C2 at the concrete address 0x41. -/
theorem set_address_frame_witness :
    ((0x40 : Int) ≤ 0x41 ∧ (0x41 : Int) ≤ 0x44) ∧
    addr_frame 0x41 =
      [ MODE_SET_ADDR, 0, 0, 0, Int.emod (0x41 + MODE_SET_ADDR) 256] :=
  ⟨by decide, (set_address_frame true init 0x41 (by decide)).1⟩

/-- C4: for a valid new address, `set_address` stores the new address
exactly when the transmission succeeds; a failed transmission leaves the
whole prior state (in particular the old address) untouched. -/
theorem set_address_commit (st : State) (a : Int)
    (h : 0x40 ≤ a ∧ a ≤ 0x44) :
    (set_address true st a).1 = true ∧
    (set_address true st a).2.1.address = a ∧
    (set_address false st a).1 = false ∧
    (set_address false st a).2.1 = st := by
  unfold set_address
  rw [if_neg (not_not_intro h), if_neg (not_not_intro h)]
  simp [_send_data]

/-- Witness for C4 at address 0x41 from the default state. -/
theorem set_address_commit_witness :
    ((0x40 : Int) ≤ 0x41 ∧ (0x41 : Int) ≤ 0x44) ∧
    (set_address true init 0x41).2.1.address = 0x41 ∧
    (set_address false init 0x41).2.1 = init :=
  ⟨by decide,
   (set_address_commit init 0x41 (by decide)).2.1,
   (set_address_commit init 0x41 (by decide)).2.2.2⟩

/-- C5: `set_range_degree` succeeds and replaces the stored degree bounds
exactly when `0 ≤ min < max ≤ 360`, and `set_range_pulse` succeeds and
replaces the stored pulse bounds exactly when `0 ≤ min < max ≤ 2815`;
all other inputs fail and leave the state unchanged. -/
theorem set_range_contract (st : State) (mn mx : Int) :
    ((set_range_degree st mn mx).1 = true ↔
      (0 ≤ mn ∧ mn < mx ∧ mx ≤ 360)) ∧
    ((0 ≤ mn ∧ mn < mx ∧ mx ≤ 360) →
      (set_range_degree st mn mx).2 =
        { st with min_degree := mn, max_degree := mx }) ∧
    (¬ (0 ≤ mn ∧ mn < mx ∧ mx ≤ 360) →
      (set_range_degree st mn mx).2 = st) ∧
    ((set_range_pulse st mn mx).1 = true ↔
      (0 ≤ mn ∧ mn < mx ∧ mx ≤ 2815)) ∧
    ((0 ≤ mn ∧ mn < mx ∧ mx ≤ 2815) →
      (set_range_pulse st mn mx).2 =
        { st with min_pulse := mn, max_pulse := mx }) ∧
    (¬ (0 ≤ mn ∧ mn < mx ∧ mx ≤ 2815) →
      (set_range_pulse st mn mx).2 = st) := by
  refine ⟨?_, ?_, ?_, ?_, ?_, ?_⟩
  · by_cases h : 0 ≤ mn ∧ mn < mx ∧ mx ≤ 360 <;> simp [set_range_degree, h]
  · intro h
    simp [set_range_degree, h]
  · intro h
    simp [set_range_degree, h]
  · by_cases h : 0 ≤ mn ∧ mn < mx ∧ mx ≤ 2815 <;> simp [set_range_pulse, h]
  · intro h
    simp [set_range_pulse, h]
  · intro h
    simp [set_range_pulse, h]

/-- Witness for C5: a successful degree-range update and a rejected
(reversed) one from the default state. -/
theorem set_range_contract_witness :
    (set_range_contract init 10 170).2.1 (by decide) =
      (set_range_contract init 10 170).2.1 (by decide) ∧
    (set_range_degree init 10 170).2 =
      { init with min_degree := 10, max_degree := 170 } ∧
    (set_range_degree init 170 10).2 = init :=
  ⟨rfl,
   (set_range_contract init 10 170).2.1 (by decide),
   (set_range_contract init 170 10).2.2.1 (by decide)⟩

end L9110

namespace L9110

/-- C1: every frame assembled and transmitted by `control_servo` or
`control_motor` carries in byte 4 the additive 8-bit checksum of bytes
0–3, i.e. `(frame[0] + frame[1] + frame[2] + frame[3]) & 0xFF`. -/
theorem assembled_frames_checksum (txOk : Bool) (st : State)
    (servo_id degree motor_id percent direction : Int)
    (hdeg : st.min_degree ≤ degree ∧ degree ≤ st.max_degree)
    (hpct : 0 ≤ percent ∧ percent ≤ 100)
    (hdir : direction = CW ∨ direction = CCW) :
    (∀ f ∈ frames_sent (control_servo txOk st servo_id degree).2.2,
      checksum_ok f) ∧
    (∀ f ∈ frames_sent (control_motor txOk st motor_id percent direction).2.2,
      checksum_ok f) := by
  constructor
  · intro f hf
    unfold control_servo at hf
    rw [if_neg (not_not_intro hdeg)] at hf
    simp only [servo_frame] at hf
    rw [frames_sent_send] at hf
    rw [List.mem_singleton] at hf
    subst hf
    simp [checksum_ok, List.getD]
  · intro f hf
    unfold control_motor at hf
    rw [if_neg (not_not_intro hpct), if_neg (not_not_intro hdir)] at hf
    simp only [motor_frame] at hf
    rw [frames_sent_send] at hf
    rw [List.mem_singleton] at hf
    subst hf
    simp [checksum_ok, List.getD]

/-- Witness for C1: the concrete servo frame transmitted for
`control_servo(S1, 90)` from the default state satisfies the checksum. -/
theorem assembled_frames_checksum_witness :
    checksum_ok [0, 1, 5, 220, 226] :=
  (assembled_frames_checksum true init 1 90 0 50 0
      (by decide) (by decide) (by decide)).1
    [0, 1, 5, 220, 226] (by decide)

/-- C6: whenever parameter validation fails — degree out of the
configured range in `control_servo`, percent out of 0–100 or direction
outside CW/CCW in `control_motor`, or a new address outside 0x40–0x44 in
`set_address` — the operation returns failure, leaves the state
untouched and issues no bus write at all. -/
theorem validation_no_transmit (txOk : Bool) (st : State)
    (servo_id degree motor_id percent direction a : Int)
    (hdeg : ¬ (st.min_degree ≤ degree ∧ degree ≤ st.max_degree))
    (hmot : ¬ (0 ≤ percent ∧ percent ≤ 100) ∨
      ¬ (direction = CW ∨ direction = CCW))
    (haddr : ¬ (0x40 ≤ a ∧ a ≤ 0x44)) :
    control_servo txOk st servo_id degree = (false, st, []) ∧
    control_motor txOk st motor_id percent direction = (false, st, []) ∧
    set_address txOk st a = (false, st, []) := by
  refine ⟨?_, ?_, ?_⟩
  · unfold control_servo
    rw [if_pos hdeg]
  · unfold control_motor
    rcases hmot with hp | hd
    · rw [if_pos hp]
    · by_cases hp : 0 ≤ percent ∧ percent ≤ 100
      · rw [if_neg (not_not_intro hp), if_pos hd]
      · rw [if_pos hp]
  · unfold set_address
    rw [if_pos haddr]

/-- Witness for C6: degree 181, direction 2 and address 0x45 are all
rejected from the default state with no bus write. -/
theorem validation_no_transmit_witness :
    control_servo true init 1 181 = (false, init, []) ∧
    control_motor true init 0 50 2 = (false, init, []) ∧
    set_address true init 0x45 = (false, init, []) :=
  validation_no_transmit true init 1 181 0 50 2 0x45
    (by decide) (Or.inr (by decide)) (by decide)

/-- C10: the channel argument is never validated: for every integer
servo id (with an in-range degree) and every integer motor id (with
in-range percent and direction) exactly one frame is assembled and
transmitted, and its byte 1 is the given channel value verbatim. -/
theorem channel_not_validated (txOk : Bool) (st : State)
    (servo_id degree motor_id percent direction : Int)
    (hdeg : st.min_degree ≤ degree ∧ degree ≤ st.max_degree)
    (hpct : 0 ≤ percent ∧ percent ≤ 100)
    (hdir : direction = CW ∨ direction = CCW) :
    frames_sent (control_servo txOk st servo_id degree).2.2 =
      [servo_frame st servo_id degree] ∧
    (servo_frame st servo_id degree).getD 1 0 = servo_id ∧
    frames_sent (control_motor txOk st motor_id percent direction).2.2 =
      [motor_frame st motor_id percent direction] ∧
    (motor_frame st motor_id percent direction).getD 1 0 = motor_id := by
  refine ⟨?_, by simp [servo_frame, List.getD], ?_, by simp [motor_frame, List.getD]⟩
  · unfold control_servo
    rw [if_neg (not_not_intro hdeg)]
    simp only [servo_frame]
    rw [frames_sent_send]
  · unfold control_motor
    rw [if_neg (not_not_intro hpct), if_neg (not_not_intro hdir)]
    simp only [motor_frame]
    rw [frames_sent_send]

/-- Witness for C10: servo id 99 and motor id 7 — both outside the
documented channel enums — still reach the bus as frame byte 1. -/
theorem channel_not_validated_witness :
    frames_sent (control_servo true init 99 90).2.2 =
      [servo_frame init 99 90] ∧
    (servo_frame init 99 90).getD 1 0 = 99 ∧
    frames_sent (control_motor true init 7 50 0).2.2 =
      [motor_frame init 7 50 0] ∧
    (motor_frame init 7 50 0).getD 1 0 = 7 :=
  channel_not_validated true init 99 90 7 50 0
    (by decide) (by decide) (Or.inl (by decide))

end L9110

namespace L9110

/-- C3: for any operands with `in_max ≠ in_min`, `_map_range` computes
the mathematical floor (round toward negative infinity) of the exact
rational `(x - in_min) * (out_max - out_min) / (in_max - in_min)`, plus
`out_min`; in particular over the default servo bounds it maps 90 to
1500, 0 to 500 and 180 to 2500. -/
theorem map_range_is_floor (x in_min in_max out_min out_max : Int)
    (h : in_max ≠ in_min) :
    _map_range x in_min in_max out_min out_max =
      ⌊(((x - in_min) * (out_max - out_min) : Int) : ℚ) /
        ((in_max - in_min : Int) : ℚ)⌋ + out_min ∧
    _map_range 90 0 180 500 2500 = 1500 ∧
    _map_range 0 0 180 500 2500 = 500 ∧
    _map_range 180 0 180 500 2500 = 2500 := by
  refine ⟨?_, by decide, by decide, by decide⟩
  unfold _map_range
  rw [fdiv_floor _ (by omega : in_max - in_min ≠ 0)]

/-- Witness for C3 over the default bounds 0–180 and 500–2500. -/
theorem map_range_is_floor_witness :
    ((180 : Int) ≠ 0) ∧
    _map_range 90 0 180 500 2500 =
      ⌊((((90 : Int) - 0) * (2500 - 500) : Int) : ℚ) /
        (((180 : Int) - 0 : Int) : ℚ)⌋ + 500 :=
  ⟨by decide, (map_range_is_floor 90 0 180 500 2500 (by decide)).1⟩

/-- C9 counterexample: the claim that every transmission carries a
payload of exactly 3 bytes is false — the single write issued by
`control_servo(S1, 90)` from the default state carries a 4-byte payload
(frame bytes 1–4, checksum included). -/
theorem transmit_payload_three_refuted :
    ((control_servo true init S1 90).2.2.map
        fun w => w.payload.length) = [4] ∧
    (4 : Nat) ≠ 3 := by
  decide

/-- C9 (amended): every transmission hands frame byte 0 to the bus
collaborator as the register argument, and the payload is frame bytes
1–4 — exactly 4 bytes, not 3. -/
theorem send_register_payload (txOk : Bool) (st : State) (data : List Int)
    (h : data.length = 5) :
    (_send_data txOk st data).2 =
      [⟨st.address, data.headI, data.tail⟩] ∧
    ∀ w ∈ (_send_data txOk st data).2, w.payload.length = 4 := by
  refine ⟨rfl, ?_⟩
  intro w hw
  rw [show (_send_data txOk st data).2 =
      [⟨st.address, data.headI, data.tail⟩] from rfl,
    List.mem_singleton] at hw
  subst hw
  simp [List.length_tail, h]

/-- Witness for C9 (amended) at the concrete frame of
`control_servo(S1, 90)`. -/
theorem send_register_payload_witness :
    (([(0 : Int), 1, 5, 220, 226]).length = 5) ∧
    (_send_data true init [(0 : Int), 1, 5, 220, 226]).2 =
      [⟨init.address, 0, [1, 5, 220, 226]⟩] :=
  ⟨by decide,
   (send_register_payload true init [(0 : Int), 1, 5, 220, 226]
      (by decide)).1⟩

end L9110
